import Mathlib

/-!
Shallow embedding of the client-side generation / edit / translate workflow:
the Generation screen (draft session: form fields, image attachments, submit,
save) and the History screen (per-record edit overlay, regenerate,
save-update, delete, translation panel). Async service calls are modelled by
passing the settled outcome of the call as an explicit `Except` argument;
handlers that may or may not reach their service call additionally return
the request they sent (`some req`) or `none` when no call was made.
-/

/-- A selected file: its data content and its MIME type (`file.type`). -/
structure DraftFile where
  content : String
  fileType : String
deriving DecidableEq

/-- The filter applied to an incoming batch: keep files whose MIME type
starts with the image mark (`file.type.startsWith("image/")`), stated
character-wise so it evaluates by kernel reduction. -/
def isImageFile (f : DraftFile) : Bool :=
  List.isPrefixOf ("image/".data) f.fileType.data

/-- The preview encoding produced by the file reader for one file
(`readAsDataURL`), modelled as the file's data content. -/
def previewOf (f : DraftFile) : String := f.content

/-- `err.response?.data?.error || fallback`: the server-reported message when
present, else the fixed per-operation fallback. -/
def errMsg (e : Option String) (fallback : String) : String :=
  e.getD fallback

/-- The Generation screen's state hooks. -/
structure GenState where
  productName : String
  productCategory : String
  targetAudience : String
  userDescription : String
  targetLanguage : String
  description : String
  loading : Bool
  saving : Bool
  error : String
  saved : Bool
  images : List DraftFile
  imagePreviews : List String
deriving DecidableEq

/-- `handleImageChange`: reject the whole batch when the raw batch size plus
the current count exceeds 5, else append the image-type files and their
previews. -/
def handleImageChange (s : GenState) (files : List DraftFile) : GenState :=
  if files.length + s.images.length > 5 then
    { s with error := "Maximum 5 images allowed" }
  else
    let newImages := files.filter isImageFile
    { s with images := s.images ++ newImages,
             imagePreviews := s.imagePreviews ++ newImages.map previewOf }

/-- `handleSubmit`: clear the error, the displayed description and the saved
flag, then call the generation service; on success store the text and clear
all image state, on failure record the error message. -/
def handleSubmit (s : GenState) (svc : Except (Option String) String) : GenState :=
  let s1 : GenState :=
    { s with error := "", description := "", saved := false, loading := true }
  match svc with
  | Except.ok desc =>
      { s1 with description := desc, saved := false,
                images := [], imagePreviews := [], loading := false }
  | Except.error e =>
      { s1 with error := errMsg e "Failed to generate description. Please try again.",
                loading := false }

/-- `handleSave`: callable only when authenticated with a description present;
on success marks `saved`, on failure records the error. The second component
reports whether the persistence service was called. -/
def handleSave (isAuthenticated : Bool) (s : GenState)
    (svc : Except (Option String) Unit) : GenState × Bool :=
  if !isAuthenticated then (s, false)
  else if s.description == "" then
    ({ s with error := "No description to save. Please generate a description first." },
     false)
  else
    let s1 : GenState := { s with saving := true, error := "" }
    match svc with
    | Except.ok _ => ({ s1 with saved := true, saving := false }, true)
    | Except.error e =>
        ({ s1 with error := errMsg e "Failed to save description. Please try again.",
                   saving := false }, true)

/-- The Save-to-History button: rendered only when authenticated with a
description present, and disabled while `saving || saved || !description`;
a click runs `handleSave` only when the button is shown and enabled. -/
def saveButtonClick (isAuthenticated : Bool) (s : GenState)
    (svc : Except (Option String) Unit) : GenState × Bool :=
  if isAuthenticated && !(s.description == "")
      && !(s.saving || s.saved || s.description == "") then
    handleSave isAuthenticated s svc
  else (s, false)

/- Concrete draft-session states used as witnesses. -/

def imgA : DraftFile := { content := "a", fileType := "image/png" }
def imgB : DraftFile := { content := "b", fileType := "image/png" }
def imgC : DraftFile := { content := "c", fileType := "image/jpeg" }
def pdfD : DraftFile := { content := "d", fileType := "application/pdf" }

def savedGenState : GenState :=
  { productName := "Mug", productCategory := "Home & Garden",
    targetAudience := "adults", userDescription := "",
    targetLanguage := "English", description := "A sturdy ceramic mug",
    loading := false, saving := false, error := "", saved := true,
    images := [], imagePreviews := [] }

def genState3 : GenState :=
  { savedGenState with
    saved := false,
    description := "",
    images := [imgA, imgB, imgC],
    imagePreviews := ["a", "b", "c"] }

/-- C2 counterexample: with 3 attachments and a batch of 3 files of which
only 2 are images, the claim says the add succeeds (3 + 2 ≤ 5); the code
checks the raw batch size first (3 + 3 > 5), leaves the attachment list
unchanged and surfaces the limit error. -/
theorem image_batch_limit_prefilter_cex :
    genState3.images.length
        + (([imgA, imgB, pdfD].filter isImageFile)).length ≤ 5 ∧
    (handleImageChange genState3 [imgA, imgB, pdfD]).images = genState3.images ∧
    (handleImageChange genState3 [imgA, imgB, pdfD]).error
      = "Maximum 5 images allowed" := by
  refine ⟨by decide, rfl, rfl⟩

/-- C2 (amended): the limit check precedes the non-image filtering and counts
the raw batch: the add succeeds iff `c + b ≤ 5` where `b` is the raw batch
size; on success it yields `c + n` attachments where `n` counts only the
image-type files; otherwise the attachment list is unchanged and an error is
surfaced. -/
theorem image_add_limit_check (s : GenState) (files : List DraftFile) :
    (files.length + s.images.length > 5 →
      (handleImageChange s files).images = s.images ∧
      (handleImageChange s files).error = "Maximum 5 images allowed") ∧
    (files.length + s.images.length ≤ 5 →
      (handleImageChange s files).images.length
        = s.images.length + (files.filter isImageFile).length ∧
      (handleImageChange s files).error = s.error) := by
  constructor
  · intro h
    simp [handleImageChange, h]
  · intro h
    have h2 : ¬ files.length + s.images.length > 5 := by omega
    simp [handleImageChange, h2]

theorem image_add_limit_check_witness :
    (handleImageChange genState3 [pdfD, imgA]).images.length
      = genState3.images.length + (([pdfD, imgA].filter isImageFile)).length ∧
    (handleImageChange genState3 [pdfD, imgA]).error = genState3.error :=
  (image_add_limit_check genState3 [pdfD, imgA]).2 (by decide)

/-- C4: a save-button invocation while the current result is already in the
`Saved` state is a no-op: the state is unchanged and no persistence-service
call is made (the button is disabled once `saved` is set). -/
theorem save_noop_once_saved (auth : Bool) (s : GenState)
    (svc : Except (Option String) Unit) (h : s.saved = true) :
    saveButtonClick auth s svc = (s, false) := by
  simp [saveButtonClick, h]

theorem save_noop_once_saved_witness :
    saveButtonClick true savedGenState (Except.ok ()) = (savedGenState, false) :=
  save_noop_once_saved true savedGenState (Except.ok ()) rfl

/-- C8: after a successful submit, the attachment list and the preview list
are both empty whatever their previous sizes; after a failed submit they are
unchanged. -/
theorem submit_settles_image_state (s : GenState) (d : String) (e : Option String) :
    (handleSubmit s (Except.ok d)).images = [] ∧
    (handleSubmit s (Except.ok d)).imagePreviews = [] ∧
    (handleSubmit s (Except.error e)).images = s.images ∧
    (handleSubmit s (Except.error e)).imagePreviews = s.imagePreviews :=
  ⟨rfl, rfl, rfl, rfl⟩

/-- C10: every submit clears the displayed result text and resets the saved
flag before the service call, so after a failed submit no result text is
displayed and the previous result is not restored. -/
theorem submit_clears_previous_result (s : GenState) (e : Option String) :
    (handleSubmit s (Except.error e)).description = "" ∧
    (handleSubmit s (Except.error e)).saved = false :=
  ⟨rfl, rfl⟩

/- History screen: data model and per-record keyed sub-state. -/

/-- One persisted generation record, as returned by the history service. -/
structure GenerationHistory where
  id : String
  product_name : String
  product_category : String
  target_audience : String
  user_description : String
  target_language : String
  image_urls : List String
  final_description : String
  created_at : String
  updated_at : String
deriving DecidableEq

/-- Lookup in a JS object used as a string-keyed map (`Record<string, α>`),
modelled as an association list in key-insertion order. -/
def getRec {α : Type} : List (String × α) → String → Option α
  | [], _ => none
  | (k, v) :: rest, key => if k = key then some v else getRec rest key

/-- `\x7b ...prev, [key]: v \x7d`: overwrite the key in place when present,
append it when new. -/
def setRec {α : Type} : List (String × α) → String → α → List (String × α)
  | [], key, v => [(key, v)]
  | (k, w) :: rest, key, v =>
      if k = key then (k, v) :: rest else (k, w) :: setRec rest key v

/-- `Partial<GenerationHistory>` as used by the edit overlay: every field
starts absent. `final_description` holds the pending regenerated text. -/
structure EditForm where
  product_category : Option String := none
  target_audience : Option String := none
  user_description : Option String := none
  target_language : Option String := none
  final_description : Option String := none
deriving DecidableEq

def emptyEditForm : EditForm := {}

/-- JavaScript `a || b` on an optional string field: falls back to `b` when
the field is absent or holds the (falsy) empty string. -/
def jsOr (o : Option String) (d : String) : String :=
  match o with
  | none => d
  | some v => if v = "" then d else v

/-- JavaScript falsiness of an optional string (`!x`): true when the field
is absent or holds the empty string. -/
def jsFalsy (o : Option String) : Bool :=
  match o with
  | none => true
  | some v => v == ""

/-- The History screen's state hooks. `languageInputs` and `translations`
are the per-record-id keyed maps of the translation panel. -/
structure HistoryState where
  generations : List GenerationHistory
  loading : Bool
  error : String
  editingId : Option String
  editForm : EditForm
  regenerating : Bool
  translatingId : Option String
  languageInputs : List (String × List String)
  translations : List (String × List (String × String))
  translating : Bool
deriving DecidableEq

/-- A record `rid` is in Editing state when it is the current editing id. -/
def isEditing (s : HistoryState) (rid : String) : Prop :=
  s.editingId = some rid

/-- `loadHistory`: fetch the list and store it, or record the error;
`loading` is cleared either way. -/
def loadHistoryStep (s : HistoryState)
    (svc : Except (Option String) (List GenerationHistory)) : HistoryState :=
  match svc with
  | Except.ok data => { s with generations := data, loading := false }
  | Except.error e =>
      { s with error := errMsg e "Failed to load history", loading := false }

/-- `handleDelete`: behind a blocking confirmation; on success remove the
record from the in-memory list, on failure record the error. The second
component reports whether the persistence service was called. -/
def handleDelete (s : HistoryState) (id : String) (confirmed : Bool)
    (svc : Except (Option String) Unit) : HistoryState × Bool :=
  if !confirmed then (s, false)
  else
    match svc with
    | Except.ok _ =>
        ({ s with generations := s.generations.filter (fun g => !(g.id == id)) },
         true)
    | Except.error e =>
        ({ s with error := errMsg e "Failed to delete generation" }, true)

/-- `handleEdit`: set the editing id to this record and seed the overlay
from the record's current values (`final_description` absent). -/
def handleEdit (s : HistoryState) (gen : GenerationHistory) : HistoryState :=
  { s with
    editingId := some gen.id,
    editForm :=
      { product_category := some gen.product_category,
        target_audience := some gen.target_audience,
        user_description := some gen.user_description,
        target_language := some gen.target_language,
        final_description := none } }

/-- `handleCancelEdit`: clear the editing id and discard the overlay. -/
def handleCancelEdit (s : HistoryState) : HistoryState :=
  { s with editingId := none, editForm := emptyEditForm }

/-- The payload sent to the generation service by a regenerate. -/
structure GenerateRequest where
  product_name : String
  product_category : String
  target_audience : String
  user_description : String
  target_language : String
deriving DecidableEq

/-- The effective attributes used by regenerate: `product_name` fixed from
the record, every other field `editForm.field || gen.field`. -/
def regenerateRequest (ef : EditForm) (gen : GenerationHistory) : GenerateRequest :=
  { product_name := gen.product_name,
    product_category := jsOr ef.product_category gen.product_category,
    target_audience := jsOr ef.target_audience gen.target_audience,
    user_description := jsOr ef.user_description gen.user_description,
    target_language := jsOr ef.target_language gen.target_language }

/-- `handleRegenerate`: call the generation service with the effective
attributes; on success store the text as the overlay's pending
`final_description`, on failure record the error. The second component is
the request that was sent. -/
def handleRegenerate (s : HistoryState) (gen : GenerationHistory)
    (svc : Except (Option String) String) : HistoryState × GenerateRequest :=
  let s1 : HistoryState := { s with regenerating := true, error := "" }
  let req := regenerateRequest s.editForm gen
  match svc with
  | Except.ok desc =>
      ({ s1 with
         editForm := { s1.editForm with final_description := some desc },
         regenerating := false }, req)
  | Except.error e =>
      ({ s1 with
         error := errMsg e "Failed to regenerate description",
         regenerating := false }, req)

/-- The payload sent to the persistence service by a save-update. -/
structure SaveRequest where
  product_name : String
  product_category : String
  target_audience : String
  user_description : String
  target_language : String
  final_description : String
  image_urls : List String
deriving DecidableEq

/-- `handleSaveUpdate`: rejected with an error when the overlay has no
truthy pending text; otherwise persist the effective attributes plus the
pending text (record's `image_urls` passed through unchanged), then on
success reload the history and leave editing; on failure record the error.
The second component is the request sent, `none` when no call was made. -/
def handleSaveUpdate (s : HistoryState) (gen : GenerationHistory)
    (svc : Except (Option String) Unit)
    (reload : Except (Option String) (List GenerationHistory)) :
    HistoryState × Option SaveRequest :=
  if jsFalsy s.editForm.final_description then
    ({ s with error := "Please regenerate the description first" }, none)
  else
    let req : SaveRequest :=
      { product_name := gen.product_name,
        product_category := jsOr s.editForm.product_category gen.product_category,
        target_audience := jsOr s.editForm.target_audience gen.target_audience,
        user_description := jsOr s.editForm.user_description gen.user_description,
        target_language := jsOr s.editForm.target_language gen.target_language,
        final_description := s.editForm.final_description.getD "",
        image_urls := gen.image_urls }
    match svc with
    | Except.ok _ =>
        let s1 := loadHistoryStep s reload
        ({ s1 with editingId := none, editForm := emptyEditForm }, some req)
    | Except.error e =>
        ({ s with error := errMsg e "Failed to update generation" }, some req)

/-- JavaScript `String.prototype.trim`, modelled character-wise over the
common whitespace characters so it evaluates by kernel reduction. -/
def isWhitespaceChar (c : Char) : Bool :=
  c == ' ' || c == '\t' || c == '\n' || c == '\r'

def trimStr (s : String) : String :=
  ⟨(((s.data.dropWhile isWhitespaceChar).reverse.dropWhile
      isWhitespaceChar).reverse)⟩

/-- The payload sent to the translation service. -/
structure TranslateReq where
  description : String
  languages : List String
deriving DecidableEq

/-- The validated language list for a record: its slots, trimmed, with
empties dropped. -/
def validLangs (s : HistoryState) (genId : String) : List String :=
  (((getRec s.languageInputs genId).getD []).map trimStr).filter
    (fun l => decide (0 < l.length))

/-- `handleTranslate`: validate the slots (at least 1, at most 3 non-empty
names, else an error and no call); on a successful call store the returned
mapping as this record's entry; on failure record the error. The second
component is the request sent, `none` when no call was made. -/
def handleTranslate (s : HistoryState) (gen : GenerationHistory)
    (svc : Except (Option String) (List (String × String))) :
    HistoryState × Option TranslateReq :=
  let langs := validLangs s gen.id
  if langs.length = 0 then
    ({ s with error := "Please enter at least one language" }, none)
  else if langs.length > 3 then
    ({ s with error := "Maximum 3 languages allowed" }, none)
  else
    let s1 : HistoryState := { s with translating := true, error := "" }
    let req : TranslateReq :=
      { description := gen.final_description, languages := langs }
    match svc with
    | Except.ok resp =>
        ({ s1 with
           translations := setRec s1.translations gen.id resp,
           translating := false }, some req)
    | Except.error e =>
        ({ s1 with
           error := errMsg e "Failed to translate description",
           translating := false }, some req)

/-- `handleLanguageInputChange`: set one slot of a record's language inputs
(defaulting an absent entry to three empty slots, as in the source). -/
def handleLanguageInputChange (s : HistoryState) (genId : String)
    (index : Nat) (value : String) : HistoryState :=
  let current := (getRec s.languageInputs genId).getD ["", "", ""]
  { s with languageInputs := setRec s.languageInputs genId (current.set index value) }

/-- `addLanguageInput`: append an empty slot while under 3 slots. -/
def addLanguageInput (s : HistoryState) (genId : String) : HistoryState :=
  let current := (getRec s.languageInputs genId).getD []
  if current.length < 3 then
    { s with languageInputs := setRec s.languageInputs genId (current ++ [""]) }
  else s

/-- `removeLanguageInput`: drop the slot at the given position. -/
def removeLanguageInput (s : HistoryState) (genId : String) (index : Nat) :
    HistoryState :=
  let current := (getRec s.languageInputs genId).getD []
  { s with languageInputs := setRec s.languageInputs genId (current.eraseIdx index) }

/-- `toggleTranslationPanel`: close the panel when this record's is open,
else open it, seeding one empty slot on first open. -/
def toggleTranslationPanel (s : HistoryState) (genId : String) : HistoryState :=
  if s.translatingId = some genId then
    { s with translatingId := none }
  else
    let s1 : HistoryState := { s with translatingId := some genId }
    match getRec s.languageInputs genId with
    | none => { s1 with languageInputs := setRec s1.languageInputs genId [""] }
    | some _ => s1

/- Concrete history-screen states used as witnesses and counterexamples. -/

def sampleGen : GenerationHistory :=
  { id := "g1", product_name := "Mug", product_category := "Home & Garden",
    target_audience := "adults", user_description := "hand made",
    target_language := "English", image_urls := [],
    final_description := "A sturdy ceramic mug", created_at := "2024-01-01",
    updated_at := "2024-01-01" }

def gen2 : GenerationHistory :=
  { sampleGen with
    id := "g2",
    product_name := "Pen" }

def baseHistState : HistoryState :=
  { generations := [sampleGen, gen2], loading := false, error := "",
    editingId := none, editForm := emptyEditForm, regenerating := false,
    translatingId := none, languageInputs := [], translations := [],
    translating := false }

def trState : HistoryState :=
  { baseHistState with
    languageInputs := [("g1", ["German"])],
    translations := [("g1", [("French", "bonjour")])] }

def histStateEditing : HistoryState :=
  { baseHistState with
    editingId := some "g1",
    editForm :=
      { product_category := some "Home & Garden",
        target_audience := some "adults",
        user_description := some "",
        target_language := some "Spanish",
        final_description := some "new text" } }

def efEmptyStr : EditForm :=
  { user_description := some "", target_language := some "Spanish" }

def emptyLangState : HistoryState :=
  { baseHistState with languageInputs := [("g1", ["", " "])] }

/- Helper lemmas about the keyed maps and the handlers. -/

theorem getRec_setRec_self {α : Type} (m : List (String × α)) (k : String) (v : α) :
    getRec (setRec m k v) k = some v := by
  induction m with
  | nil => simp [getRec, setRec]
  | cons hd tl ih =>
      obtain ⟨k2, w⟩ := hd
      by_cases h : k2 = k <;> simp [getRec, setRec, h, ih]

theorem getRec_setRec_other {α : Type} (m : List (String × α)) (k k2 : String)
    (v : α) (h : k2 ≠ k) : getRec (setRec m k v) k2 = getRec m k2 := by
  induction m with
  | nil => simp [getRec, setRec, Ne.symm h]
  | cons hd tl ih =>
      obtain ⟨k3, w⟩ := hd
      by_cases h3 : k3 = k
      · subst h3
        simp [getRec, setRec, Ne.symm h]
      · by_cases h4 : k3 = k2 <;> simp [getRec, setRec, h3, h4, ih, h]

theorem handleRegenerate_req (s : HistoryState) (gen : GenerationHistory)
    (svc : Except (Option String) String) :
    (handleRegenerate s gen svc).2 = regenerateRequest s.editForm gen := by
  cases svc <;> rfl

theorem handleSaveUpdate_req_of_falsy (s : HistoryState) (gen : GenerationHistory)
    (svc : Except (Option String) Unit)
    (reload : Except (Option String) (List GenerationHistory))
    (h : jsFalsy s.editForm.final_description = true) :
    (handleSaveUpdate s gen svc reload).2 = none := by
  simp [handleSaveUpdate, h]

theorem handleSaveUpdate_req_of_pending (s : HistoryState) (gen : GenerationHistory)
    (svc : Except (Option String) Unit)
    (reload : Except (Option String) (List GenerationHistory))
    (h : jsFalsy s.editForm.final_description = false) :
    (handleSaveUpdate s gen svc reload).2 =
      some { product_name := gen.product_name,
             product_category := jsOr s.editForm.product_category gen.product_category,
             target_audience := jsOr s.editForm.target_audience gen.target_audience,
             user_description := jsOr s.editForm.user_description gen.user_description,
             target_language := jsOr s.editForm.target_language gen.target_language,
             final_description := s.editForm.final_description.getD "",
             image_urls := gen.image_urls } := by
  cases svc <;> simp [handleSaveUpdate, h]

theorem handleTranslate_languageInputs (s : HistoryState) (gen : GenerationHistory)
    (svc : Except (Option String) (List (String × String))) :
    (handleTranslate s gen svc).1.languageInputs = s.languageInputs := by
  cases svc <;> (simp only [handleTranslate]; split_ifs <;> rfl)

theorem jsOr_some_ne (v d : String) (h : v ≠ "") : jsOr (some v) d = v := by
  simp [jsOr, h]

theorem jsOr_fallback (o : Option String) (d : String)
    (h : o = none ∨ o = some "") : jsOr o d = d := by
  rcases h with h | h <;> simp [h, jsOr]

/-- C5: at most one record is in Editing at any instant: beginning edit on a
record leaves exactly that record in Editing, and cancelling the edit or a
successful save-update leaves no record in Editing. -/
theorem single_active_edit :
    (∀ s B r, isEditing (handleEdit s B) r ↔ r = B.id) ∧
    (∀ s r, ¬ isEditing (handleCancelEdit s) r) ∧
    (∀ s gen reload r, jsFalsy s.editForm.final_description = false →
      ¬ isEditing (handleSaveUpdate s gen (Except.ok ()) reload).1 r) := by
  refine ⟨?_, ?_, ?_⟩
  · intro s B r
    simp [isEditing, handleEdit, eq_comm]
  · intro s r
    simp [isEditing, handleCancelEdit]
  · intro s gen reload r h
    simp [isEditing, handleSaveUpdate, h]

theorem single_active_edit_witness :
    ¬ isEditing (handleSaveUpdate histStateEditing sampleGen (Except.ok ())
        (Except.ok [])).1 "g1" :=
  single_active_edit.2.2 histStateEditing sampleGen (Except.ok []) "g1" (by decide)

/-- C6: when the edit session has no truthy pending regenerated text,
save-update is rejected with a user-facing error, makes no persistence call,
and changes nothing else. -/
theorem saveUpdate_requires_pending_text (s : HistoryState) (gen : GenerationHistory)
    (svc : Except (Option String) Unit)
    (reload : Except (Option String) (List GenerationHistory))
    (h : jsFalsy s.editForm.final_description = true) :
    (handleSaveUpdate s gen svc reload).2 = none ∧
    (handleSaveUpdate s gen svc reload).1
      = { s with error := "Please regenerate the description first" } := by
  constructor
  · exact handleSaveUpdate_req_of_falsy s gen svc reload h
  · simp [handleSaveUpdate, h]

theorem saveUpdate_requires_pending_text_witness :
    (handleSaveUpdate baseHistState sampleGen (Except.ok ()) (Except.ok [])).2
      = none ∧
    (handleSaveUpdate baseHistState sampleGen (Except.ok ()) (Except.ok [])).1
      = { baseHistState with error := "Please regenerate the description first" } :=
  saveUpdate_requires_pending_text baseHistState sampleGen (Except.ok ())
    (Except.ok []) rfl

/-- C7: a translate whose slots yield zero non-empty names after trimming,
or more than three, makes no translation-service call and leaves the
accumulated translation mappings unchanged. -/
theorem translate_rejects_invalid_count (s : HistoryState) (gen : GenerationHistory)
    (svc : Except (Option String) (List (String × String)))
    (h : (validLangs s gen.id).length = 0 ∨ (validLangs s gen.id).length > 3) :
    (handleTranslate s gen svc).2 = none ∧
    (handleTranslate s gen svc).1.translations = s.translations := by
  rcases h with h | h
  · constructor <;> simp [handleTranslate, h]
  · have h0 : ¬ (validLangs s gen.id).length = 0 := by omega
    constructor <;> simp [handleTranslate, h0, h]

theorem translate_rejects_invalid_count_witness :
    (handleTranslate emptyLangState sampleGen (Except.ok [])).2 = none ∧
    (handleTranslate emptyLangState sampleGen (Except.ok [])).1.translations
      = emptyLangState.translations :=
  translate_rejects_invalid_count emptyLangState sampleGen (Except.ok [])
    (Or.inl (by decide))

/-- C1 counterexample: record `g1` has an accumulated French entry; a
successful translate returning only German replaces the record's mapping,
so the French entry is not retained (the claim says it is). -/
theorem translate_not_merged_cex :
    getRec ((getRec trState.translations "g1").getD []) "French"
      = some "bonjour" ∧
    (validLangs trState "g1").length = 1 ∧
    getRec ((getRec (handleTranslate trState sampleGen
        (Except.ok [("German", "hallo")])).1.translations "g1").getD []) "French"
      = none ∧
    getRec ((getRec (handleTranslate trState sampleGen
        (Except.ok [("German", "hallo")])).1.translations "g1").getD []) "German"
      = some "hallo" := by decide

/-- C1 (amended): on a successful translate with a valid language list, the
returned language→text mapping replaces the record's translation mapping
wholesale (re-requested languages get the new text, languages absent from
the response are dropped); other records' mappings are unchanged. -/
theorem translate_success_replaces_mapping (s : HistoryState)
    (gen : GenerationHistory) (resp : List (String × String))
    (h1 : ¬ (validLangs s gen.id).length = 0)
    (h2 : ¬ (validLangs s gen.id).length > 3) :
    getRec (handleTranslate s gen (Except.ok resp)).1.translations gen.id
      = some resp ∧
    ∀ rid, rid ≠ gen.id →
      getRec (handleTranslate s gen (Except.ok resp)).1.translations rid
        = getRec s.translations rid := by
  constructor
  · simp [handleTranslate, h1, h2, getRec_setRec_self]
  · intro rid hr
    simp [handleTranslate, h1, h2, getRec_setRec_other _ _ _ _ hr]

theorem translate_success_replaces_mapping_witness :
    getRec (handleTranslate trState sampleGen
        (Except.ok [("German", "hallo")])).1.translations "g1"
      = some [("German", "hallo")] ∧
    getRec (handleTranslate trState sampleGen
        (Except.ok [("German", "hallo")])).1.translations "g2"
      = getRec trState.translations "g2" := by
  have H := translate_success_replaces_mapping trState sampleGen
    [("German", "hallo")] (by decide) (by decide)
  exact ⟨H.1, H.2 "g2" (by decide)⟩

/-- C3 counterexample: an overlay field that is present but empty: the claim
says it still counts as present (effective value the empty string), but the
code's falsy fallback uses the record's stored value instead. -/
theorem effective_value_empty_overlay_cex :
    efEmptyStr.user_description = some "" ∧
    (regenerateRequest efEmptyStr sampleGen).user_description
      = sampleGen.user_description ∧
    sampleGen.user_description ≠ "" := by decide

/-- C3 (amended): the effective value used by regenerate and by save-update
is the overlay value when it is present and non-empty, and the record's
stored value otherwise (an overlay field holding the empty string falls
back to the stored value); `product_name` is always taken from the record,
and save-update uses the same effective attributes as regenerate. -/
theorem effective_attribute_semantics (s : HistoryState) (gen : GenerationHistory)
    (svcR : Except (Option String) String) (svcS : Except (Option String) Unit)
    (reload : Except (Option String) (List GenerationHistory)) :
    (handleRegenerate s gen svcR).2.product_name = gen.product_name ∧
    (∀ v, s.editForm.product_category = some v → v ≠ "" →
      (handleRegenerate s gen svcR).2.product_category = v) ∧
    ((s.editForm.product_category = none ∨ s.editForm.product_category = some "") →
      (handleRegenerate s gen svcR).2.product_category = gen.product_category) ∧
    (∀ v, s.editForm.target_audience = some v → v ≠ "" →
      (handleRegenerate s gen svcR).2.target_audience = v) ∧
    ((s.editForm.target_audience = none ∨ s.editForm.target_audience = some "") →
      (handleRegenerate s gen svcR).2.target_audience = gen.target_audience) ∧
    (∀ v, s.editForm.user_description = some v → v ≠ "" →
      (handleRegenerate s gen svcR).2.user_description = v) ∧
    ((s.editForm.user_description = none ∨ s.editForm.user_description = some "") →
      (handleRegenerate s gen svcR).2.user_description = gen.user_description) ∧
    (∀ v, s.editForm.target_language = some v → v ≠ "" →
      (handleRegenerate s gen svcR).2.target_language = v) ∧
    ((s.editForm.target_language = none ∨ s.editForm.target_language = some "") →
      (handleRegenerate s gen svcR).2.target_language = gen.target_language) ∧
    (∀ req, (handleSaveUpdate s gen svcS reload).2 = some req →
      req.product_name = gen.product_name ∧
      req.product_category = (handleRegenerate s gen svcR).2.product_category ∧
      req.target_audience = (handleRegenerate s gen svcR).2.target_audience ∧
      req.user_description = (handleRegenerate s gen svcR).2.user_description ∧
      req.target_language = (handleRegenerate s gen svcR).2.target_language) := by
  refine ⟨?_, ?_, ?_, ?_, ?_, ?_, ?_, ?_, ?_, ?_⟩
  · simp [handleRegenerate_req, regenerateRequest]
  · intro v hv hne
    rw [handleRegenerate_req]
    simp only [regenerateRequest]
    rw [hv]
    exact jsOr_some_ne v gen.product_category hne
  · intro hcase
    rw [handleRegenerate_req]
    simp only [regenerateRequest]
    exact jsOr_fallback _ _ hcase
  · intro v hv hne
    rw [handleRegenerate_req]
    simp only [regenerateRequest]
    rw [hv]
    exact jsOr_some_ne v gen.target_audience hne
  · intro hcase
    rw [handleRegenerate_req]
    simp only [regenerateRequest]
    exact jsOr_fallback _ _ hcase
  · intro v hv hne
    rw [handleRegenerate_req]
    simp only [regenerateRequest]
    rw [hv]
    exact jsOr_some_ne v gen.user_description hne
  · intro hcase
    rw [handleRegenerate_req]
    simp only [regenerateRequest]
    exact jsOr_fallback _ _ hcase
  · intro v hv hne
    rw [handleRegenerate_req]
    simp only [regenerateRequest]
    rw [hv]
    exact jsOr_some_ne v gen.target_language hne
  · intro hcase
    rw [handleRegenerate_req]
    simp only [regenerateRequest]
    exact jsOr_fallback _ _ hcase
  · intro req hreq
    cases hjs : jsFalsy s.editForm.final_description with
    | false =>
        rw [handleSaveUpdate_req_of_pending s gen svcS reload hjs] at hreq
        injection hreq with hreq2
        subst hreq2
        rw [handleRegenerate_req]
        exact ⟨rfl, rfl, rfl, rfl, rfl⟩
    | true =>
        rw [handleSaveUpdate_req_of_falsy s gen svcS reload hjs] at hreq
        cases hreq

theorem effective_attribute_semantics_witness :
    (handleRegenerate histStateEditing sampleGen (Except.ok "t")).2.target_language
      = "Spanish" ∧
    (handleRegenerate histStateEditing sampleGen (Except.ok "t")).2.user_description
      = sampleGen.user_description ∧
    (handleRegenerate histStateEditing sampleGen (Except.ok "t")).2.product_name
      = sampleGen.product_name := by
  have H := effective_attribute_semantics histStateEditing sampleGen (Except.ok "t")
    (Except.ok ()) (Except.ok [])
  exact ⟨H.2.2.2.2.2.2.2.1 "Spanish" rfl (by decide),
         H.2.2.2.2.2.2.1 (Or.inr rfl), H.1⟩

/-- C9 counterexample: deleting record `g1` succeeds (it leaves the list)
but the record's language inputs and accumulated translations are not
cleared (the claim says deletion clears them). -/
theorem delete_retains_translation_state_cex :
    (handleDelete trState "g1" true (Except.ok ())).1.generations = [gen2] ∧
    getRec (handleDelete trState "g1" true (Except.ok ())).1.translations "g1"
      = some [("French", "bonjour")] ∧
    getRec (handleDelete trState "g1" true (Except.ok ())).1.languageInputs "g1"
      = some ["German"] := by decide

/-- C9 (amended): a record's translation state is never cleared: successful
deletion leaves both per-record maps untouched, and toggling a panel,
beginning or cancelling an edit, and translating another record leave the
record's entries intact as well. -/
theorem translation_state_never_cleared (s : HistoryState) (rid : String) :
    (∀ id confirmed svc,
      (handleDelete s id confirmed svc).1.translations = s.translations ∧
      (handleDelete s id confirmed svc).1.languageInputs = s.languageInputs) ∧
    (∀ gid, (toggleTranslationPanel s gid).translations = s.translations) ∧
    (∀ gid, gid ≠ rid →
      getRec (toggleTranslationPanel s gid).languageInputs rid
        = getRec s.languageInputs rid) ∧
    (∀ gen, (handleEdit s gen).translations = s.translations ∧
      (handleEdit s gen).languageInputs = s.languageInputs) ∧
    ((handleCancelEdit s).translations = s.translations ∧
      (handleCancelEdit s).languageInputs = s.languageInputs) ∧
    (∀ gen svc, gen.id ≠ rid →
      getRec (handleTranslate s gen svc).1.translations rid
        = getRec s.translations rid ∧
      (handleTranslate s gen svc).1.languageInputs = s.languageInputs) := by
  refine ⟨?_, ?_, ?_, ?_, ⟨rfl, rfl⟩, ?_⟩
  · intro id confirmed svc
    cases confirmed <;> cases svc <;> simp [handleDelete]
  · intro gid
    by_cases h : s.translatingId = some gid
    · simp [toggleTranslationPanel, h]
    · simp only [toggleTranslationPanel, if_neg h]
      cases hg : getRec s.languageInputs gid <;> simp
  · intro gid hne
    by_cases h : s.translatingId = some gid
    · simp [toggleTranslationPanel, h]
    · simp only [toggleTranslationPanel, if_neg h]
      cases hg : getRec s.languageInputs gid
      · simp [getRec_setRec_other _ _ _ _ (Ne.symm hne)]
      · simp
  · intro gen
    exact ⟨rfl, rfl⟩
  · intro gen svc hne
    constructor
    · by_cases h0 : (validLangs s gen.id).length = 0
      · simp [handleTranslate, h0]
      · by_cases h3 : (validLangs s gen.id).length > 3
        · simp [handleTranslate, h0, h3]
        · cases svc with
          | ok resp =>
              simp [handleTranslate, h0, h3,
                getRec_setRec_other _ _ _ _ (Ne.symm hne)]
          | error e => simp [handleTranslate, h0, h3]
    · exact handleTranslate_languageInputs s gen svc

theorem translation_state_never_cleared_witness :
    (handleDelete trState "g1" true (Except.ok ())).1.translations
      = trState.translations ∧
    getRec (handleTranslate trState gen2 (Except.ok [])).1.translations "g1"
      = getRec trState.translations "g1" := by
  have H := translation_state_never_cleared trState "g1"
  exact ⟨(H.1 "g1" true (Except.ok ())).1,
         (H.2.2.2.2.2 gen2 (Except.ok []) (by decide)).1⟩
